import Mathlib

/-!
# PolicySim-AI: formal verification of the simulation core

A shallow embedding of `src/models.py` and `src/config.py`.

Conventions:
* Python floats are modelled as exact rationals (`ℚ`).
* `round(x, n)` is modelled as decimal round-half-to-even (`pyround`),
  matching Python's banker's rounding on the exact value.
* Python dicts are modelled as ordered association lists (`Dict`), with
  insertion-order iteration, in-place update (`dset`) and `.get` (`dgetD`).
* A `KeyError` from `d[k]` is modelled by `Option`: computations that can
  raise return `Option _` and yield `none` on a missing key.
* Static `methodology` strings are omitted: they are constants independent
  of all inputs.  The `summary` f-string is modelled by the tuple of the
  numbers it displays, rounded exactly as its format specifiers do.
* The `mode_share or self.params["mode_share"]` and
  `policy_adjustments or {}` fallbacks are resolved at the call sites:
  every call in the verified pipeline passes its arguments explicitly, and
  a `Policy` with all levers 0 is the empty adjustment map (every lever is
  only ever read via `.get(key, 0)`).
-/

/-- Ordered association list standing for a Python `dict[str, float]`. -/
abbrev Dict := List (String × ℚ)

/-- `d.get(k)` as an `Option`: first binding of `k`, if any. -/
def dget? : Dict → String → Option ℚ
  | [], _ => none
  | kv :: rest, k => if kv.1 = k then some kv.2 else dget? rest k

/-- `d.get(k, v₀)`: lookup with a default. -/
def dgetD (d : Dict) (k : String) (v₀ : ℚ) : ℚ := (dget? d k).getD v₀

/-- `k in d`. -/
def dhas (d : Dict) (k : String) : Prop := (dget? d k).isSome

instance (d : Dict) (k : String) : Decidable (dhas d k) := by
  unfold dhas; infer_instance

/-- `d[k] = v`: update in place when the key exists (keeping its position,
as a Python dict does), append otherwise. -/
def dset (d : Dict) (k : String) (v : ℚ) : Dict :=
  match dget? d k with
  | some _ => d.map (fun kv => if kv.1 = k then (k, v) else kv)
  | none => d ++ [(k, v)]

/-- `{k: f(v) for k, v in d.items()}`. -/
def dmap (f : ℚ → ℚ) (d : Dict) : Dict := d.map (fun kv => (kv.1, f kv.2))

/-- `sum(d.values())`. -/
def dsum : Dict → ℚ
  | [] => 0
  | kv :: rest => kv.2 + dsum rest

/-- `list(d.keys())`. -/
def dkeys (d : Dict) : List String := d.map (·.1)

/-- Round-half-to-even to the nearest integer (Python's rounding mode). -/
def rhe (q : ℚ) : ℤ :=
  if q - ⌊q⌋ < 1/2 then ⌊q⌋
  else if 1/2 < q - ⌊q⌋ then ⌊q⌋ + 1
  else if ⌊q⌋ % 2 = 0 then ⌊q⌋ else ⌊q⌋ + 1

/-- Python's `round(q, n)` on the exact rational value. -/
def pyround (n : ℕ) (q : ℚ) : ℚ := (rhe (q * 10 ^ n) : ℚ) / 10 ^ n

/-- Weighted sum `sum(table[mode] * share for mode, share in weights.items())`;
`none` models the `KeyError` raised when a key of `weights` is absent from
`table` (Python's `sum` over the generator is strict, so any missing key
aborts the whole sum). -/
def sumWeighted (table : Dict) : Dict → Option ℚ
  | [] => some 0
  | kv :: rest =>
    match dget? table kv.1 with
    | some c =>
      match sumWeighted table rest with
      | some s => some (c * kv.2 + s)
      | none => none
    | none => none

-- =========================================================================
-- config.py
-- =========================================================================

/-- `ParameterSet` (the `DEFAULT_PARAMS`-shaped bundle every model reads). -/
structure Params where
  population : ℚ
  daily_trips : ℚ
  mode_share : Dict
  avg_trip_distance_km : ℚ
  avg_trip_time_minutes : ℚ
  avg_vehicle_occupancy : ℚ
  fuel_efficiency_km_per_liter : ℚ
  fuel_price_per_liter : ℚ
  public_transit_fare : ℚ
  avg_hourly_wage : ℚ
  emission_factors : Dict
  deriving DecidableEq, Repr

/-- `DEFAULT_PARAMS` from `config.py`. -/
def DEFAULT_PARAMS : Params where
  population := 1000000
  daily_trips := 2500000
  mode_share := [("private_car", 45/100), ("motorcycle", 25/100),
                 ("public_transit", 20/100), ("walking_cycling", 10/100)]
  avg_trip_distance_km := 12
  avg_trip_time_minutes := 35
  avg_vehicle_occupancy := 13/10
  fuel_efficiency_km_per_liter := 12
  fuel_price_per_liter := 120/100
  public_transit_fare := 150/100
  avg_hourly_wage := 8
  emission_factors := [("private_car", 21/100), ("motorcycle", 10/100),
                       ("public_transit", 5/100), ("walking_cycling", 0)]

/-- A policy-adjustment map.  Only these three levers are ever read by the
models (always via `.get(key, 0)`), so an absent key and a zero value are
indistinguishable; unrecognized keys are ignored by the source and are
therefore not represented. -/
structure Policy where
  fuel_tax_percent : ℚ := 0
  pt_subsidy_percent : ℚ := 0
  congestion_price : ℚ := 0
  deriving DecidableEq, Repr

/-- The four canonical transportation modes. -/
def canonicalModes : List String :=
  ["private_car", "motorcycle", "public_transit", "walking_cycling"]

-- =========================================================================
-- Result records (models.py dataclasses; static `methodology` text omitted)
-- =========================================================================

structure EmissionsResult where
  total_co2_kg_per_day : ℚ
  co2_by_mode : Dict
  per_capita_co2_kg : ℚ
  per_trip_co2_kg : ℚ
  deriving DecidableEq, Repr

structure CostResult where
  user_cost_per_trip : ℚ
  total_user_cost_per_day : ℚ
  government_cost_per_year : ℚ
  cost_by_mode : Dict
  deriving DecidableEq, Repr

structure EquityResult where
  gini_index : ℚ
  accessibility_by_income : Dict
  burden_by_income : Dict
  equity_score : ℚ
  deriving DecidableEq, Repr

structure EfficiencyResult where
  avg_travel_time_minutes : ℚ
  travel_time_by_mode : Dict
  congestion_index : ℚ
  system_throughput : ℚ
  deriving DecidableEq, Repr

structure ModeShareResult where
  baseline_shares : Dict
  projected_shares : Dict
  shift_percentage : Dict
  deriving DecidableEq, Repr

/-- The numbers displayed by `_generate_summary`'s f-string, rounded as its
format specifiers round them (`:,.0f`, `:.2f`, `:.2f`, `:.0f`). -/
structure Summary where
  co2_display : ℚ
  cost_display : ℚ
  equity_display : ℚ
  time_display : ℚ
  deriving DecidableEq, Repr

structure SimulationResult where
  emissions : EmissionsResult
  cost : CostResult
  equity : EquityResult
  efficiency : EfficiencyResult
  mode_share : ModeShareResult
  overall_score : ℚ
  summary : Summary
  deriving DecidableEq, Repr

-- =========================================================================
-- EmissionsModel (models.py lines 83-143)
-- =========================================================================

/-- Per-mode raw (unrounded) CO2: `trips × distance × emission_factor`, the
private-car factor divided by average occupancy first. -/
def EmissionsModel.contributions (p : Params) (mode_share : Dict) : Dict :=
  mode_share.map (fun kv =>
    let trips := p.daily_trips * kv.2
    let distance := trips * p.avg_trip_distance_km
    let ef := dgetD p.emission_factors kv.1 0
    let ef := if kv.1 = "private_car" then ef / p.avg_vehicle_occupancy else ef
    (kv.1, distance * ef))

/-- `EmissionsModel.calculate`.  `co2_by_mode` stores per-mode values rounded
to 2 decimals while the total accumulates the unrounded values. -/
def EmissionsModel.calculate (p : Params) (mode_share : Dict) : EmissionsResult :=
  let contribs := EmissionsModel.contributions p mode_share
  let total := dsum contribs
  { total_co2_kg_per_day := pyround 2 total
    co2_by_mode := dmap (pyround 2) contribs
    per_capita_co2_kg := pyround 4 (total / p.population)
    per_trip_co2_kg := pyround 4 (total / p.daily_trips) }

-- =========================================================================
-- CostBenefitModel (models.py lines 150-245)
-- =========================================================================

/-- The `cost_by_mode` dict built by `CostBenefitModel.calculate`:
fuel tax raises the fuel price, the subsidy lowers the transit fare,
value of time is half the wage per minute, and the 0.9 / 1.3 / 1.5
mode-specific time factors are fixed. -/
def CostBenefitModel.costByMode (p : Params) (policy : Policy) : Dict :=
  let fuel_price := p.fuel_price_per_liter * (1 + policy.fuel_tax_percent / 100)
  let pt_fare := p.public_transit_fare * (1 - policy.pt_subsidy_percent / 100)
  let value_of_time := p.avg_hourly_wage * (1/2) / 60
  let car_fuel_cost := (p.avg_trip_distance_km / p.fuel_efficiency_km_per_liter) * fuel_price
  let car_time_cost := p.avg_trip_time_minutes * value_of_time
  let moto_fuel_cost := (p.avg_trip_distance_km / (p.fuel_efficiency_km_per_liter * (3/2))) * fuel_price
  let moto_time_cost := p.avg_trip_time_minutes * (9/10) * value_of_time
  let pt_time_cost := p.avg_trip_time_minutes * (13/10) * value_of_time
  let walk_time_cost := p.avg_trip_time_minutes * (3/2) * value_of_time
  [("private_car", pyround 2 (car_fuel_cost + car_time_cost)),
   ("motorcycle", pyround 2 (moto_fuel_cost + moto_time_cost)),
   ("public_transit", pyround 2 (pt_fare + pt_time_cost)),
   ("walking_cycling", pyround 2 walk_time_cost)]

/-- `CostBenefitModel.calculate`.  `none` models the `KeyError` raised when
the weighted user-cost sum indexes `cost_by_mode` with a mode name from
`mode_share` outside the four canonical ones.  The government cost uses
the *base* transit fare (`self.params`, not the subsidy-adjusted fare)
and the `public_transit` share of the mode share passed in
(`mode_share.get("public_transit", 0.2)`). -/
def CostBenefitModel.calculate (p : Params) (mode_share : Dict) (policy : Policy) :
    Option CostResult :=
  let cbm := CostBenefitModel.costByMode p policy
  match sumWeighted cbm mode_share with
  | none => none
  | some user_cost =>
    let total_daily := user_cost * p.daily_trips
    let pt_trips := p.daily_trips * dgetD mode_share "public_transit" (20/100)
    let subsidy_per_trip := p.public_transit_fare * policy.pt_subsidy_percent / 100
    let govt_daily := pt_trips * subsidy_per_trip
    let govt_yearly := govt_daily * 365
    some { user_cost_per_trip := pyround 2 user_cost
           total_user_cost_per_day := pyround 2 total_daily
           government_cost_per_year := pyround 2 govt_yearly
           cost_by_mode := cbm }

-- =========================================================================
-- EquityModel (models.py lines 252-349)
-- =========================================================================

/-- Insertion of one element into an ascending-sorted list. -/
def insertSorted (x : ℚ) : List ℚ → List ℚ
  | [] => [x]
  | y :: ys => if x ≤ y then x :: y :: ys else y :: insertSorted x ys

/-- Python's `sorted` (ascending) on a list of numbers. -/
def sortAsc (l : List ℚ) : List ℚ := l.foldr insertSorted []

/-- `np.cumsum`: running totals. -/
def cumsumFrom (acc : ℚ) : List ℚ → List ℚ
  | [] => []
  | x :: xs => (acc + x) :: cumsumFrom (acc + x) xs

/-- `EquityModel._calculate_gini`: sorted cumulative-sum formula, 0 for an
empty or all-zero list. -/
def calculateGini (values : List ℚ) : ℚ :=
  let v := sortAsc values
  let n := v.length
  if n = 0 ∨ v.sum = 0 then 0
  else
    let cs := cumsumFrom 0 v
    ((n : ℚ) + 1 - 2 * cs.sum / (cs.getLast?.getD 0)) / n

/-- The fixed income-quintile table (`EquityModel.income_groups`): name and
income multiplier.  The `share` field (0.20 for every group) is never read
by `calculate` and is omitted. -/
def incomeGroups : List (String × ℚ) :=
  [("low", 4/10), ("lower_middle", 7/10), ("middle", 1),
   ("upper_middle", 15/10), ("high", 25/10)]

/-- `EquityModel.calculate`.  The `mode_share` argument is accepted but never
used by the source body; burden varies across quintiles only through income.
`equity_score` is `1 - gini` with the *unrounded* gini, then rounded to 3. -/
def EquityModel.calculate (p : Params) (user_cost_per_trip : ℚ)
    (_mode_share : Dict) (policy : Policy) : EquityResult :=
  let hourly_wage := p.avg_hourly_wage
  let daily_trips_per_person := p.daily_trips / p.population
  let burden_by_income : Dict := incomeGroups.map (fun g =>
    let daily_income := hourly_wage * 8 * g.2
    let daily_transport_cost := user_cost_per_trip * daily_trips_per_person
    (g.1, pyround 2 (daily_transport_cost / daily_income * 100)))
  let accessibility_by_income : Dict := incomeGroups.map (fun g =>
    let car_access := min 1 g.2
    let pt_quality := 1 - policy.pt_subsidy_percent / 200
    (g.1, pyround 2 (car_access * (1/2) + (1 - pt_quality) * (1/2))))
  let gini := calculateGini (burden_by_income.map (·.2))
  { gini_index := pyround 3 gini
    accessibility_by_income := accessibility_by_income
    burden_by_income := burden_by_income
    equity_score := pyround 3 (1 - gini) }

-- =========================================================================
-- EfficiencyModel (models.py lines 356-437)
-- =========================================================================

/-- `EfficiencyModel.base_times`: base travel time in minutes per mode. -/
def baseTimes : Dict :=
  [("private_car", 30), ("motorcycle", 25), ("public_transit", 45),
   ("walking_cycling", 50)]

/-- `EfficiencyModel.calculate`.  The congestion factor multiplies only the
car and motorcycle times; the weighted average uses the *rounded* per-mode
times; `none` models the `KeyError` on a mode name outside the base-time
table. -/
def EfficiencyModel.calculate (p : Params) (mode_share : Dict)
    (congestion_factor : ℚ) : Option EfficiencyResult :=
  let travel_time_by_mode : Dict := baseTimes.map (fun kv =>
    let time := if kv.1 = "private_car" ∨ kv.1 = "motorcycle"
                then kv.2 * congestion_factor else kv.2
    (kv.1, pyround 1 time))
  match sumWeighted travel_time_by_mode mode_share with
  | none => none
  | some avg_time =>
    match sumWeighted baseTimes mode_share with
    | none => none
    | some free_flow_time =>
      let congestion_index := if free_flow_time > 0 then avg_time / free_flow_time else 1
      let total_person_km := p.daily_trips * p.avg_trip_distance_km
      let avg_hours := avg_time / 60
      let throughput := if avg_hours > 0 then total_person_km / (p.daily_trips * avg_hours) else 0
      some { avg_travel_time_minutes := pyround 1 avg_time
             travel_time_by_mode := travel_time_by_mode
             congestion_index := pyround 3 congestion_index
             system_throughput := pyround 2 throughput }

-- =========================================================================
-- ModeShareModel (models.py lines 444-540)
-- =========================================================================

/-- `ModeShareModel.elasticities`: own-price elasticities of demand. -/
def elasticities : Dict :=
  [("private_car", -(3/10)), ("motorcycle", -(4/10)),
   ("public_transit", -(4/10)), ("walking_cycling", -(1/10))]

/-- `ModeShareModel.cross_elasticities`: (mode_a, mode_b) ↦ how mode_a's
share reacts to mode_b's price change. -/
def crossElasticities : List ((String × String) × ℚ) :=
  [(("private_car", "public_transit"), 3/10),
   (("public_transit", "private_car"), 2/10)]

/-- The per-mode fractional price changes, including the congestion-pricing
add-on to `private_car` when `congestion_price > 0` (the
`price_changes["private_car"] += ...` read cannot fail: the key is present
in the literal, so `dgetD` with default 0 is exact). -/
def priceChanges (policy : Policy) : Dict :=
  let pcs : Dict :=
    [("private_car", policy.fuel_tax_percent / 100),
     ("motorcycle", policy.fuel_tax_percent / 100),
     ("public_transit", -(policy.pt_subsidy_percent / 100)),
     ("walking_cycling", 0)]
  if policy.congestion_price > 0 then
    dset pcs "private_car" (dgetD pcs "private_car" 0 + policy.congestion_price * (1/10))
  else pcs

/-- One step of the own-price-elasticity loop:
`projected[mode] = baseline[mode] * (1 + elasticity * price_change)` when
the price change is non-zero; `baseline[mode]` and `elasticities[mode]`
are `KeyError`-raising lookups. -/
def ownStep (baseline : Dict) (proj : Dict) (kv : String × ℚ) : Option Dict :=
  if kv.2 ≠ 0 then
    match dget? elasticities kv.1 with
    | some e =>
      match dget? baseline kv.1 with
      | some b => some (dset proj kv.1 (b * (1 + e * kv.2)))
      | none => none
    | none => none
  else some proj

/-- One step of the cross-elasticity loop:
`projected[mode_a] *= (1 + cross_e * price_changes[mode_b])` when
`price_changes.get(mode_b, 0)` is non-zero. -/
def crossStep (pcs : Dict) (proj : Dict) (ab : (String × String) × ℚ) : Option Dict :=
  if dgetD pcs ab.1.2 0 ≠ 0 then
    match dget? pcs ab.1.2 with
    | some pb =>
      match dget? proj ab.1.1 with
      | some pa => some (dset proj ab.1.1 (pa * (1 + ab.2 * pb)))
      | none => none
    | none => none
  else some proj

/-- `Option`-threaded left fold over a list (a `for` loop whose body can
raise). -/
def foldSteps (f : Dict → α → Option Dict) : Dict → List α → Option Dict
  | d, [] => some d
  | d, x :: xs =>
    match f d x with
    | some d' => foldSteps f d' xs
    | none => none

/-- The projected shares right before normalization: own-price effects
applied over the price-change dict, then cross-elasticity effects. -/
def rawProjected (p : Params) (policy : Policy) : Option Dict :=
  let baseline := p.mode_share
  let pcs := priceChanges policy
  match foldSteps (ownStep baseline) baseline pcs with
  | some proj => foldSteps (crossStep pcs) proj crossElasticities
  | none => none

/-- The `shift_percentage` comprehension: percent change from baseline per
mode, 0 when the baseline share is 0 (the `projected[mode]` index is only
evaluated when the baseline share is positive). -/
def shiftPercentage (projected : Dict) : Dict → Option Dict
  | [] => some []
  | kv :: rest =>
    if kv.2 > 0 then
      match dget? projected kv.1 with
      | some pv =>
        match shiftPercentage projected rest with
        | some tail => some ((kv.1, pyround 2 ((pv - kv.2) / kv.2 * 100)) :: tail)
        | none => none
      | none => none
    else
      match shiftPercentage projected rest with
      | some tail => some ((kv.1, (0:ℚ)) :: tail)
      | none => none

/-- `ModeShareModel.calculate`: elasticity effects, renormalization to sum
1.0 (skipped when the total is not positive), rounding of each share to 4
decimals, then shift percentages against baseline. -/
def ModeShareModel.calculate (p : Params) (policy : Policy) : Option ModeShareResult :=
  let baseline := p.mode_share
  match rawProjected p policy with
  | none => none
  | some raw =>
    let total := dsum raw
    let normed := if total > 0 then dmap (fun v => v / total) raw else raw
    let projected := dmap (pyround 4) normed
    match shiftPercentage projected baseline with
    | none => none
    | some shift =>
      some { baseline_shares := baseline
             projected_shares := projected
             shift_percentage := shift }

-- =========================================================================
-- PolicySimulator (models.py lines 547-683)
-- =========================================================================

/-- `PolicySimulator._calculate_overall_score`: each of the emissions, cost
and efficiency sub-scores is clipped below at 0 via `max(0, 1 - metric/denom)`
(denominators 5, 20, 60), equity is used directly, the four are weighted at
0.25 each, multiplied by 100 and rounded to 1 decimal. -/
def calculateOverallScore (em : EmissionsResult) (c : CostResult)
    (eqr : EquityResult) (ef : EfficiencyResult) : ℚ :=
  let emissions_score := max 0 (1 - em.per_trip_co2_kg / 5)
  let cost_score := max 0 (1 - c.user_cost_per_trip / 20)
  let equity_score := eqr.equity_score
  let efficiency_score := max 0 (1 - ef.avg_travel_time_minutes / 60)
  let overall := (25/100) * emissions_score + (25/100) * cost_score
               + (25/100) * equity_score + (25/100) * efficiency_score
  pyround 1 (overall * 100)

/-- `_generate_summary`, reduced to the numbers the f-string displays. -/
def mkSummary (em : EmissionsResult) (c : CostResult) (eqr : EquityResult)
    (ef : EfficiencyResult) : Summary :=
  { co2_display := pyround 0 em.total_co2_kg_per_day
    cost_display := pyround 2 c.user_cost_per_trip
    equity_display := pyround 2 eqr.equity_score
    time_display := pyround 0 ef.avg_travel_time_minutes }

/-- `PolicySimulator.simulate`, with the parameter state threaded explicitly
through the five stages: each stage reads the parameter state it is handed
and (as in the source, which never assigns into `self.params`) passes it on
unchanged; the pair's second component is the parameter state after the
call. -/
def simulateS (p : Params) (policy : Policy) : Option SimulationResult × Params :=
  match ModeShareModel.calculate p policy with
  | none => (none, p)
  | some mode_result =>
    let new_mode_share := mode_result.projected_shares
    let emissions_result := EmissionsModel.calculate p new_mode_share
    match CostBenefitModel.calculate p new_mode_share policy with
    | none => (none, p)
    | some cost_result =>
      let equity_result := EquityModel.calculate p cost_result.user_cost_per_trip
        new_mode_share policy
      let car_share_change := dgetD new_mode_share "private_car" 0
                            - dgetD p.mode_share "private_car" 0
      let congestion_factor := 1 + car_share_change
      match EfficiencyModel.calculate p new_mode_share (max (8/10) congestion_factor) with
      | none => (none, p)
      | some efficiency_result =>
        let overall_score := calculateOverallScore emissions_result cost_result
          equity_result efficiency_result
        (some { emissions := emissions_result
                cost := cost_result
                equity := equity_result
                efficiency := efficiency_result
                mode_share := mode_result
                overall_score := overall_score
                summary := mkSummary emissions_result cost_result equity_result
                  efficiency_result }, p)

/-- `PolicySimulator.simulate`'s return value. -/
def simulate (p : Params) (policy : Policy) : Option SimulationResult :=
  (simulateS p policy).1

-- =========================================================================
-- Abbreviations used to state the claims
-- =========================================================================

/-- A policy consisting of a fuel tax alone. -/
def polF (t : ℚ) : Policy := { fuel_tax_percent := t }

/-- The `private_car` entry of a mode-share result's projected shares. -/
def projectedCar (r : ModeShareResult) : ℚ := dgetD r.projected_shares "private_car" 0

/-- Closed form (traced from `ModeShareModel.calculate` with the default
parameters and a fuel tax `t` as the only lever) of the renormalized,
pre-rounding `private_car` share: the car's own-elasticity factor over the
total of all four adjusted shares. -/
def carShareFuel (t : ℚ) : ℚ :=
  (9/20 * (1 + -(3/10) * (t / 100))) / (1 - 39/200 * (t / 100))

/-- The pre-normalization projected shares for a fuel-tax-only policy,
as produced by `rawProjected` (car and motorcycle shrink by their own
elasticities; public transit grows by the cross-elasticity on the car
price change; walking/cycling is untouched). -/
def rawFuel (t : ℚ) : Dict :=
  [("private_car", 9/20 * (1 + -(3/10) * (t / 100))),
   ("motorcycle", 1/4 * (1 + -(4/10) * (t / 100))),
   ("public_transit", 1/5 * (1 + 2/10 * (t / 100))),
   ("walking_cycling", 1/10)]

-- =========================================================================
-- Rounding lemmas
-- =========================================================================

theorem floor_le_rhe (q : ℚ) : ⌊q⌋ ≤ rhe q := by
  unfold rhe
  split_ifs <;> omega

theorem rhe_le_floor_add_one (q : ℚ) : rhe q ≤ ⌊q⌋ + 1 := by
  unfold rhe
  split_ifs <;> omega

theorem abs_rhe_sub (q : ℚ) : |(rhe q : ℚ) - q| ≤ 1/2 := by
  have hr0 : (0:ℚ) ≤ q - ⌊q⌋ := by
    have := Int.floor_le q
    linarith
  have hr1 : q - ⌊q⌋ < 1 := by
    have := Int.lt_floor_add_one q
    linarith
  have hc : ((⌊q⌋ + 1 : ℤ) : ℚ) = (⌊q⌋ : ℚ) + 1 := by
    push_cast
    ring
  unfold rhe
  split_ifs with h1 h2 h3 <;> rw [abs_le] <;> constructor <;>
    (try rw [hc]) <;> linarith

theorem rhe_mono {q r : ℚ} (h : q ≤ r) : rhe q ≤ rhe r := by
  rcases lt_or_eq_of_le (Int.floor_le_floor h : ⌊q⌋ ≤ ⌊r⌋) with hf | hf
  · calc rhe q ≤ ⌊q⌋ + 1 := rhe_le_floor_add_one q
    _ ≤ ⌊r⌋ := by omega
    _ ≤ rhe r := floor_le_rhe r
  · have hqr : q - (⌊q⌋ : ℚ) ≤ r - (⌊r⌋ : ℚ) := by
      rw [← hf]; linarith
    unfold rhe
    rw [hf] at hqr ⊢
    split_ifs <;> first | omega | (exfalso; linarith)

theorem pyround_mono (n : ℕ) {q r : ℚ} (h : q ≤ r) : pyround n q ≤ pyround n r := by
  have hp : (0:ℚ) < 10 ^ n := by positivity
  have h2 : ((rhe (q * 10 ^ n) : ℚ)) ≤ ((rhe (r * 10 ^ n) : ℚ)) := by
    exact_mod_cast rhe_mono (mul_le_mul_of_nonneg_right h hp.le)
  unfold pyround
  gcongr

theorem abs_pyround_sub (n : ℕ) (q : ℚ) : |pyround n q - q| ≤ 1 / (2 * 10 ^ n) := by
  have hp : (0:ℚ) < 10 ^ n := by positivity
  have key : pyround n q - q = ((rhe (q * 10 ^ n) : ℚ) - q * 10 ^ n) / 10 ^ n := by
    unfold pyround
    field_simp
    ring
  have h := abs_rhe_sub (q * 10 ^ n)
  rw [key, abs_div, abs_of_pos hp, div_le_div_iff₀ hp (by positivity)]
  nlinarith [abs_nonneg ((rhe (q * 10 ^ n) : ℚ) - q * 10 ^ n)]

-- =========================================================================
-- Dict lemmas
-- =========================================================================

theorem mem_dkeys_iff (d : Dict) (k : String) :
    k ∈ dkeys d ↔ (dget? d k).isSome := by
  induction d with
  | nil => simp [dkeys, dget?]
  | cons kv rest ih =>
    simp only [dkeys, List.map_cons, List.mem_cons, dget?] at *
    by_cases h : kv.1 = k
    · simp [h]
    · rw [if_neg h, ← ih]
      constructor
      · rintro (h1 | h2)
        · exact absurd h1.symm h
        · exact h2
      · intro h2
        exact Or.inr h2

theorem dkeys_dset (d : Dict) (k : String) (v : ℚ)
    (h : (dget? d k).isSome) : dkeys (dset d k v) = dkeys d := by
  obtain ⟨w, hw⟩ := Option.isSome_iff_exists.mp h
  unfold dset
  rw [hw]
  unfold dkeys
  rw [List.map_map]
  apply List.map_congr_left
  intro kv _
  by_cases hk : kv.1 = k
  · simp [hk]
  · simp [hk]

theorem dkeys_dmap (f : ℚ → ℚ) (d : Dict) : dkeys (dmap f d) = dkeys d := by
  unfold dkeys dmap
  rw [List.map_map]
  rfl

theorem length_dkeys (d : Dict) : (dkeys d).length = d.length := List.length_map _ _

theorem dsum_dmap_div (d : Dict) (t : ℚ) :
    dsum (dmap (fun v => v / t) d) = dsum d / t := by
  induction d with
  | nil => simp [dsum, dmap]
  | cons kv rest ih =>
    simp only [dmap, List.map_cons, dsum] at *
    rw [ih, add_div]

theorem abs_dsum_dmap_pyround (n : ℕ) (d : Dict) :
    |dsum (dmap (pyround n) d) - dsum d| ≤ d.length * (1 / (2 * 10 ^ n)) := by
  induction d with
  | nil => simp [dsum, dmap]
  | cons kv rest ih =>
    have h1 := abs_pyround_sub n kv.2
    calc |dsum (dmap (pyround n) (kv :: rest)) - dsum (kv :: rest)|
        = |(pyround n kv.2 - kv.2) + (dsum (dmap (pyround n) rest) - dsum rest)| := by
          simp only [dmap, List.map_cons, dsum]
          congr 1
          ring
      _ ≤ |pyround n kv.2 - kv.2| + |dsum (dmap (pyround n) rest) - dsum rest| := abs_add _ _
      _ ≤ 1 / (2 * 10 ^ n) + rest.length * (1 / (2 * 10 ^ n)) := add_le_add h1 ih
      _ = (kv :: rest).length * (1 / (2 * 10 ^ n)) := by
          rw [List.length_cons]
          push_cast
          ring

-- =========================================================================
-- Key preservation through the mode-share pipeline
-- =========================================================================

theorem ownStep_keys {baseline proj proj' : Dict} {kv : String × ℚ}
    (h : ownStep baseline proj kv = some proj')
    (hk : dkeys proj = dkeys baseline) : dkeys proj' = dkeys baseline := by
  unfold ownStep at h
  split_ifs at h with hc
  · cases he : dget? elasticities kv.1 with
    | none => rw [he] at h; exact absurd h (by simp)
    | some e =>
      rw [he] at h
      cases hb : dget? baseline kv.1 with
      | none => rw [hb] at h; exact absurd h (by simp)
      | some b =>
        rw [hb] at h
        have hmem : (dget? proj kv.1).isSome := by
          rw [← mem_dkeys_iff, hk, mem_dkeys_iff, hb]
          rfl
        have := dkeys_dset proj kv.1 (b * (1 + e * kv.2)) hmem
        simp only [Option.some_inj] at h
        rw [← h, this, hk]
  · simp only [Option.some_inj] at h
    rw [← h, hk]

theorem crossStep_keys {pcs proj proj' : Dict} {ab : (String × String) × ℚ}
    (h : crossStep pcs proj ab = some proj') : dkeys proj' = dkeys proj := by
  unfold crossStep at h
  split_ifs at h with hc
  · cases hpb : dget? pcs ab.1.2 with
    | none => rw [hpb] at h; exact absurd h (by simp)
    | some pb =>
      rw [hpb] at h
      cases hpa : dget? proj ab.1.1 with
      | none => rw [hpa] at h; exact absurd h (by simp)
      | some pa =>
        rw [hpa] at h
        have hmem : (dget? proj ab.1.1).isSome := by rw [hpa]; rfl
        simp only [Option.some_inj] at h
        rw [← h, dkeys_dset proj ab.1.1 _ hmem]
  · simp only [Option.some_inj] at h
    rw [← h]

theorem foldSteps_own_keys (baseline : Dict) :
    ∀ (pcs : List (String × ℚ)) (proj proj' : Dict),
      foldSteps (ownStep baseline) proj pcs = some proj' →
      dkeys proj = dkeys baseline → dkeys proj' = dkeys baseline := by
  intro pcs
  induction pcs with
  | nil =>
    intro proj proj' h hk
    simp only [foldSteps, Option.some_inj] at h
    rw [← h]; exact hk
  | cons kv rest ih =>
    intro proj proj' h hk
    simp only [foldSteps] at h
    cases hs : ownStep baseline proj kv with
    | none => rw [hs] at h; exact absurd h (by simp)
    | some proj₂ =>
      rw [hs] at h
      exact ih proj₂ proj' h (ownStep_keys hs hk)

theorem foldSteps_cross_keys (pcs : Dict) :
    ∀ (l : List ((String × String) × ℚ)) (proj proj' : Dict),
      foldSteps (crossStep pcs) proj l = some proj' →
      dkeys proj' = dkeys proj := by
  intro l
  induction l with
  | nil =>
    intro proj proj' h
    simp only [foldSteps, Option.some_inj] at h
    rw [← h]
  | cons ab rest ih =>
    intro proj proj' h
    simp only [foldSteps] at h
    cases hs : crossStep pcs proj ab with
    | none => rw [hs] at h; exact absurd h (by simp)
    | some proj₂ =>
      rw [hs] at h
      rw [ih proj₂ proj' h, crossStep_keys hs]

theorem rawProjected_keys {p : Params} {policy : Policy} {raw : Dict}
    (h : rawProjected p policy = some raw) : dkeys raw = dkeys p.mode_share := by
  simp only [rawProjected] at h
  cases h1 : foldSteps (ownStep p.mode_share) p.mode_share (priceChanges policy) with
  | none => rw [h1] at h; exact absurd h (by simp)
  | some proj =>
    rw [h1] at h
    rw [foldSteps_cross_keys _ _ _ _ h]
    exact foldSteps_own_keys _ _ _ _ h1 rfl

-- =========================================================================
-- shiftPercentage totality on covered keys
-- =========================================================================

theorem shiftPercentage_isSome (projected : Dict) :
    ∀ (b : Dict), (∀ kv ∈ b, 0 < kv.2 → (dget? projected kv.1).isSome) →
      ∃ s, shiftPercentage projected b = some s := by
  intro b
  induction b with
  | nil => exact fun _ => ⟨[], rfl⟩
  | cons kv rest ih =>
    intro hb
    obtain ⟨tail, htail⟩ := ih (fun kv' h' => hb kv' (List.mem_cons_of_mem _ h'))
    by_cases hpos : 0 < kv.2
    · obtain ⟨pv, hpv⟩ := Option.isSome_iff_exists.mp
        (hb kv (List.mem_cons_self _ _) hpos)
      refine ⟨(kv.1, pyround 2 ((pv - kv.2) / kv.2 * 100)) :: tail, ?_⟩
      simp only [shiftPercentage, if_pos hpos, hpv, htail]
    · refine ⟨(kv.1, 0) :: tail, ?_⟩
      simp only [shiftPercentage, if_neg hpos, htail]

-- =========================================================================
-- sumWeighted lemmas
-- =========================================================================

theorem sumWeighted_none {table : Dict} {kv : String × ℚ} :
    ∀ {ms : Dict}, kv ∈ ms → dget? table kv.1 = none →
      sumWeighted table ms = none := by
  intro ms
  induction ms with
  | nil => intro h; exact absurd h (List.not_mem_nil _)
  | cons kv' rest ih =>
    intro hmem hnone
    rcases List.mem_cons.mp hmem with h | h
    · subst h
      simp only [sumWeighted, hnone]
    · simp only [sumWeighted]
      cases hc : dget? table kv'.1 with
      | none => rfl
      | some c => rw [ih h hnone]

theorem sumWeighted_isSome {table : Dict} :
    ∀ {ms : Dict}, (∀ kv ∈ ms, (dget? table kv.1).isSome) →
      (sumWeighted table ms).isSome := by
  intro ms
  induction ms with
  | nil => intro _; rfl
  | cons kv rest ih =>
    intro h
    obtain ⟨c, hc⟩ := Option.isSome_iff_exists.mp (h kv (List.mem_cons_self _ _))
    have := ih (fun kv' h' => h kv' (List.mem_cons_of_mem _ h'))
    obtain ⟨s, hs⟩ := Option.isSome_iff_exists.mp this
    simp only [sumWeighted, hc, hs]
    rfl

-- =========================================================================
-- Characterization of costByMode's key set (used for C10)
-- =========================================================================

theorem dget?_costByMode_isSome (p : Params) (policy : Policy) (k : String) :
    (dget? (CostBenefitModel.costByMode p policy) k).isSome ↔ k ∈ canonicalModes := by
  simp only [CostBenefitModel.costByMode, dget?, canonicalModes, List.mem_cons,
    List.not_mem_nil, or_false]
  split_ifs <;> simp_all [eq_comm]

-- =========================================================================
-- simulateS leaves the parameter state unchanged (shared helper)
-- =========================================================================

theorem simulateS_snd (p : Params) (policy : Policy) : (simulateS p policy).2 = p := by
  simp only [simulateS]
  repeat' split
  all_goals rfl

-- =========================================================================
-- The claims
-- =========================================================================

/-- C3: with an empty adjustment map (all levers read as 0) and the default
parameters, `ModeShareModel.calculate` returns projected shares exactly
equal to the baseline shares for every mode (and zero shift percentages). -/
theorem c3_no_policy_identity :
    ModeShareModel.calculate DEFAULT_PARAMS ⟨0, 0, 0⟩ =
      some { baseline_shares := DEFAULT_PARAMS.mode_share
             projected_shares := DEFAULT_PARAMS.mode_share
             shift_percentage := [("private_car", 0), ("motorcycle", 0),
                                  ("public_transit", 0), ("walking_cycling", 0)] } := by
  norm_num [ModeShareModel.calculate, rawProjected, priceChanges, ownStep, crossStep,
    foldSteps, dset, dget?, dgetD, dmap, dsum, shiftPercentage, elasticities,
    crossElasticities, DEFAULT_PARAMS, pyround, rhe]
  simp

/-- C4: on the default parameters and the baseline mode share,
`EmissionsModel.calculate` yields a daily CO2 total of 3,230,769.23 kg —
approximately 3,230,769 kg, within rounding — where the private car's
emission factor is divided by the average vehicle occupancy before
multiplying and no other mode gets an occupancy adjustment. -/
theorem c4_baseline_emissions :
    (EmissionsModel.calculate DEFAULT_PARAMS DEFAULT_PARAMS.mode_share).total_co2_kg_per_day
      = 323076923/100
    ∧ |(EmissionsModel.calculate DEFAULT_PARAMS DEFAULT_PARAMS.mode_share).total_co2_kg_per_day
        - 3230769| < 1
    ∧ dget? (EmissionsModel.calculate DEFAULT_PARAMS DEFAULT_PARAMS.mode_share).co2_by_mode
        "private_car" = some (pyround 2 (2500000 * (45/100) * 12 * ((21/100) / (13/10))))
    ∧ dget? (EmissionsModel.calculate DEFAULT_PARAMS DEFAULT_PARAMS.mode_share).co2_by_mode
        "motorcycle" = some (pyround 2 (2500000 * (25/100) * 12 * (10/100))) := by
  refine ⟨?_, ?_, ?_, ?_⟩ <;>
    (simp [EmissionsModel.calculate, EmissionsModel.contributions, dmap, dsum,
      dgetD, dget?, DEFAULT_PARAMS, pyround, rhe]
     try norm_num [Int.fract, -Int.self_sub_floor]
     try (rw [abs_lt]; constructor <;> norm_num))

/-- C7: the simulation is deterministic — running `simulate` a second time,
with the same adjustment map, on the parameter state left behind by a first
run yields exactly the same `SimulationResult` (every nested record, the
overall score, and the summary) and the same parameter state. -/
theorem c7_deterministic (p : Params) (policy : Policy) :
    simulateS ((simulateS p policy).2) policy = simulateS p policy := by
  rw [simulateS_snd]

/-- C9: a `simulate` call leaves the `ParameterSet` unchanged: the parameter
state threaded through all five model stages comes back equal to the input
parameters, with every field (including the nested `mode_share` and
`emission_factors` mappings) intact. -/
theorem c9_params_unchanged (p : Params) (policy : Policy) :
    (simulateS p policy).2 = p :=
  simulateS_snd p policy

/-- C1 (amended): `government_cost_per_year` is
`round2(daily_trips × mode_share.get("public_transit", 0.2) × (base_fare ×
pt_subsidy_percent/100) × 365)` — it uses the *passed-in* (projected) public
transit share, not the baseline share; only the fare is the base
(pre-subsidy) one. -/
theorem c1_government_cost_formula (p : Params) (ms : Dict) (policy : Policy) :
    (CostBenefitModel.calculate p ms policy).map CostResult.government_cost_per_year
      = (CostBenefitModel.calculate p ms policy).map (fun _ =>
          pyround 2 (p.daily_trips * dgetD ms "public_transit" (20/100)
            * (p.public_transit_fare * policy.pt_subsidy_percent / 100) * 365)) := by
  simp only [CostBenefitModel.calculate]
  cases h : sumWeighted (CostBenefitModel.costByMode p policy) ms <;> simp [h]

/-- C1 (counterexample): with a 50% subsidy, passing a shifted mode share
(public transit at 0.30 instead of the baseline 0.20) to
`CostBenefitModel.calculate` yields a yearly government cost of 205,312,500,
which differs from the baseline-share figure of 136,875,000 the claim
predicts — so the figure does change with the projected share. -/
theorem c1_counterexample :
    (CostBenefitModel.calculate DEFAULT_PARAMS
        [("private_car", 35/100), ("motorcycle", 25/100),
         ("public_transit", 30/100), ("walking_cycling", 10/100)]
        { pt_subsidy_percent := 50 }).map CostResult.government_cost_per_year
      = some 205312500
    ∧ ¬ (205312500 : ℚ) = pyround 2 (DEFAULT_PARAMS.daily_trips
          * dgetD DEFAULT_PARAMS.mode_share "public_transit" (20/100)
          * (DEFAULT_PARAMS.public_transit_fare * (50 : ℚ) / 100) * 365) := by
  constructor <;>
    (simp [CostBenefitModel.calculate, CostBenefitModel.costByMode, sumWeighted,
      dget?, dgetD, DEFAULT_PARAMS, pyround, rhe]
     try norm_num [Int.fract, -Int.self_sub_floor])

/-- C8: in `CostBenefitModel.calculate`'s `cost_by_mode`, the public-transit
entry is `round2(base_fare × (1 - pt_subsidy_percent/100) + time_cost)` with
`time_cost = avg_trip_time_minutes × 1.3 × value_of_time`; a 100% subsidy
drives the fare component to 0 (leaving only the time cost) and a 0%
subsidy leaves the fare at the base fare. -/
theorem c8_subsidy_fare (p : Params) (policy : Policy)
    (_h0 : 0 ≤ policy.pt_subsidy_percent) (_h1 : policy.pt_subsidy_percent ≤ 100) :
    dget? (CostBenefitModel.costByMode p policy) "public_transit"
      = some (pyround 2 (p.public_transit_fare * (1 - policy.pt_subsidy_percent / 100)
          + p.avg_trip_time_minutes * (13/10) * (p.avg_hourly_wage * (1/2) / 60)))
    ∧ (policy.pt_subsidy_percent = 100 →
        dget? (CostBenefitModel.costByMode p policy) "public_transit"
          = some (pyround 2 (p.avg_trip_time_minutes * (13/10) * (p.avg_hourly_wage * (1/2) / 60))))
    ∧ (policy.pt_subsidy_percent = 0 →
        dget? (CostBenefitModel.costByMode p policy) "public_transit"
          = some (pyround 2 (p.public_transit_fare
              + p.avg_trip_time_minutes * (13/10) * (p.avg_hourly_wage * (1/2) / 60)))) := by
  refine ⟨?_, ?_, ?_⟩
  · simp [CostBenefitModel.costByMode, dget?]
  · intro h
    simp only [CostBenefitModel.costByMode, dget?]
    simp only [show ¬("private_car" : String) = "public_transit" by simp,
      show ¬("motorcycle" : String) = "public_transit" by simp, if_neg, if_pos,
      ite_false, ite_true, Option.some_inj]
    rw [h]
    norm_num
  · intro h
    simp only [CostBenefitModel.costByMode, dget?]
    simp only [show ¬("private_car" : String) = "public_transit" by simp,
      show ¬("motorcycle" : String) = "public_transit" by simp, if_neg, if_pos,
      ite_false, ite_true, Option.some_inj]
    rw [h]
    norm_num

/-- C8 (witness): the theorem instantiated at the default parameters and a
100% subsidy. -/
theorem c8_subsidy_fare_witness :
    dget? (CostBenefitModel.costByMode DEFAULT_PARAMS ⟨0, 100, 0⟩) "public_transit"
      = some (pyround 2 (DEFAULT_PARAMS.public_transit_fare * (1 - (100:ℚ) / 100)
          + DEFAULT_PARAMS.avg_trip_time_minutes * (13/10)
            * (DEFAULT_PARAMS.avg_hourly_wage * (1/2) / 60)))
    ∧ ((100:ℚ) = 100 →
        dget? (CostBenefitModel.costByMode DEFAULT_PARAMS ⟨0, 100, 0⟩) "public_transit"
          = some (pyround 2 (DEFAULT_PARAMS.avg_trip_time_minutes * (13/10)
              * (DEFAULT_PARAMS.avg_hourly_wage * (1/2) / 60))))
    ∧ ((100:ℚ) = 0 →
        dget? (CostBenefitModel.costByMode DEFAULT_PARAMS ⟨0, 100, 0⟩) "public_transit"
          = some (pyround 2 (DEFAULT_PARAMS.public_transit_fare
              + DEFAULT_PARAMS.avg_trip_time_minutes * (13/10)
                * (DEFAULT_PARAMS.avg_hourly_wage * (1/2) / 60)))) :=
  c8_subsidy_fare DEFAULT_PARAMS ⟨0, 100, 0⟩ (by norm_num) (by norm_num)

/-- C10: `CostBenefitModel.calculate` raises a key-lookup error (modelled as
`none`) exactly when the supplied mode-share mapping contains a mode name
outside the four canonical modes, because the weighted user-cost sum indexes
the four-key `cost_by_mode` dict by every key of the input; restricted to
canonical keys it always succeeds. -/
theorem c10_unknown_mode_keyerror (p : Params) (ms : Dict) (policy : Policy) :
    ((∃ kv, kv ∈ ms ∧ kv.1 ∉ canonicalModes) →
      CostBenefitModel.calculate p ms policy = none)
    ∧ ((∀ kv, kv ∈ ms → kv.1 ∈ canonicalModes) →
      (CostBenefitModel.calculate p ms policy).isSome = true) := by
  constructor
  · rintro ⟨kv, hmem, hbad⟩
    have hnone : dget? (CostBenefitModel.costByMode p policy) kv.1 = none := by
      rw [← Option.not_isSome_iff_eq_none]
      rw [dget?_costByMode_isSome]
      exact hbad
    have hsum := sumWeighted_none hmem hnone
    simp only [CostBenefitModel.calculate, hsum]
  · intro h
    have hsum := sumWeighted_isSome
      (fun kv hm => (dget?_costByMode_isSome p policy kv.1).mpr (h kv hm))
    obtain ⟨u, hu⟩ := Option.isSome_iff_exists.mp hsum
    simp only [CostBenefitModel.calculate, hu]
    rfl

/-- C10 (witness): a mapping with the unknown mode `"bicycle"` makes
`calculate` raise, while the canonical baseline mapping succeeds. -/
theorem c10_unknown_mode_keyerror_witness :
    CostBenefitModel.calculate DEFAULT_PARAMS [("bicycle", 1)] ⟨0, 0, 0⟩ = none
    ∧ (CostBenefitModel.calculate DEFAULT_PARAMS DEFAULT_PARAMS.mode_share ⟨0, 0, 0⟩).isSome
        = true :=
  ⟨(c10_unknown_mode_keyerror DEFAULT_PARAMS [("bicycle", 1)] ⟨0, 0, 0⟩).1
      ⟨("bicycle", 1), by simp, by simp [canonicalModes]⟩,
   (c10_unknown_mode_keyerror DEFAULT_PARAMS DEFAULT_PARAMS.mode_share ⟨0, 0, 0⟩).2
      (by
        intro kv h
        simp only [DEFAULT_PARAMS, List.mem_cons, List.not_mem_nil, or_false] at h
        rcases h with h | h | h | h <;> subst h <;> simp [canonicalModes])⟩

/-- C2 (amended): whenever the pre-normalization total of the projected
shares is positive (so the renormalization step runs), the renormalized
shares sum to exactly 1 before rounding, and the returned projected shares
— each rounded to 4 decimal places — sum to 1 within 2e-4 (four shares,
each off by at most 5e-5).  The claimed 1e-6 tolerance does not survive
the rounding (see the counterexample), and for large valid
`congestion_price` the pre-normalization total can fail to be positive, in
which case normalization is skipped entirely. -/
theorem c2_renormalized_sum (policy : Policy) (raw : Dict)
    (hraw : rawProjected DEFAULT_PARAMS policy = some raw)
    (hT : 0 < dsum raw) :
    ∃ r, ModeShareModel.calculate DEFAULT_PARAMS policy = some r ∧
      dsum (dmap (fun v => v / dsum raw) raw) = 1 ∧
      |dsum r.projected_shares - 1| ≤ 1/5000 := by
  have hkeys : dkeys raw = canonicalModes := by
    rw [rawProjected_keys hraw]
    rfl
  have hlen : raw.length = 4 := by
    have h := congrArg List.length hkeys
    rw [length_dkeys] at h
    simpa using h
  have hsum1 : dsum (dmap (fun v => v / dsum raw) raw) = 1 := by
    rw [dsum_dmap_div]
    exact div_self (ne_of_gt hT)
  have hproj_keys : dkeys (dmap (pyround 4) (dmap (fun v => v / dsum raw) raw))
      = canonicalModes := by
    rw [dkeys_dmap, dkeys_dmap, hkeys]
  obtain ⟨s, hs⟩ := shiftPercentage_isSome
      (dmap (pyround 4) (dmap (fun v => v / dsum raw) raw)) DEFAULT_PARAMS.mode_share
      (by
        intro kv hkv _
        rw [← mem_dkeys_iff, hproj_keys]
        simp only [DEFAULT_PARAMS, List.mem_cons, List.not_mem_nil, or_false] at hkv
        rcases hkv with h | h | h | h <;> subst h <;> simp [canonicalModes])
  refine ⟨{ baseline_shares := DEFAULT_PARAMS.mode_share
            projected_shares := dmap (pyround 4) (dmap (fun v => v / dsum raw) raw)
            shift_percentage := s }, ?_, hsum1, ?_⟩
  · simp only [ModeShareModel.calculate, hraw, gt_iff_lt, hT, if_true, hs]
  · have hb := abs_dsum_dmap_pyround 4 (dmap (fun v => v / dsum raw) raw)
    rw [hsum1] at hb
    have hlen2 : (dmap (fun v => v / dsum raw) raw).length = 4 := by
      simp [dmap, hlen]
    rw [hlen2] at hb
    calc |dsum (dmap (pyround 4) (dmap (fun v => v / dsum raw) raw)) - 1|
        ≤ (4 : ℕ) * (1 / (2 * 10 ^ 4)) := hb
      _ ≤ 1/5000 := by norm_num

/-- C2 (witness): the theorem instantiated at a 10% fuel tax, whose
pre-normalization shares are explicit and total 1961/2000 > 0. -/
theorem c2_renormalized_sum_witness :
    ∃ r, ModeShareModel.calculate DEFAULT_PARAMS (polF 10) = some r ∧
      dsum (dmap (fun v => v / dsum [("private_car", (873:ℚ)/2000), ("motorcycle", 6/25),
          ("public_transit", 51/250), ("walking_cycling", 1/10)])
        [("private_car", (873:ℚ)/2000), ("motorcycle", 6/25),
          ("public_transit", 51/250), ("walking_cycling", 1/10)]) = 1 ∧
      |dsum r.projected_shares - 1| ≤ 1/5000 :=
  c2_renormalized_sum (polF 10)
    [("private_car", 873/2000), ("motorcycle", 6/25),
     ("public_transit", 51/250), ("walking_cycling", 1/10)]
    (by
      simp [rawProjected, priceChanges, ownStep, crossStep, foldSteps, dset, dget?,
        dgetD, elasticities, crossElasticities, DEFAULT_PARAMS, polF]
      norm_num)
    (by norm_num [dsum])

/-- C2 (counterexample): at the valid adjustment `fuel_tax_percent = 10`
the values of `projected_shares` (after the 4-decimal rounding the model
applies) sum to 1.0001, which misses 1.0 by 1e-4 > 1e-6. -/
theorem c2_counterexample :
    (ModeShareModel.calculate DEFAULT_PARAMS (polF 10)).map (fun r => dsum r.projected_shares)
      = some (10001/10000)
    ∧ ¬ |(10001:ℚ)/10000 - 1| ≤ 1/1000000 := by
  constructor
  · have hraw : rawProjected DEFAULT_PARAMS (polF 10)
        = some [("private_car", (873:ℚ)/2000), ("motorcycle", 6/25),
                ("public_transit", 51/250), ("walking_cycling", 1/10)] := by
      simp [rawProjected, priceChanges, ownStep, crossStep, foldSteps, dset, dget?,
        dgetD, elasticities, crossElasticities, DEFAULT_PARAMS, polF]
      norm_num
    have hT : (0:ℚ) < dsum [("private_car", (873:ℚ)/2000), ("motorcycle", 6/25),
        ("public_transit", 51/250), ("walking_cycling", 1/10)] := by
      norm_num [dsum]
    have hshift : shiftPercentage
        (dmap (pyround 4) (dmap (fun v => v / dsum [("private_car", (873:ℚ)/2000),
            ("motorcycle", 6/25), ("public_transit", 51/250), ("walking_cycling", 1/10)])
          [("private_car", (873:ℚ)/2000), ("motorcycle", 6/25),
           ("public_transit", 51/250), ("walking_cycling", 1/10)]))
        DEFAULT_PARAMS.mode_share
        = some [("private_car", -107/100), ("motorcycle", -52/25),
                ("public_transit", 81/20), ("walking_cycling", 2)] := by
      simp [shiftPercentage, dget?, dmap, dsum, DEFAULT_PARAMS, pyround, rhe]
      norm_num [Int.fract, -Int.self_sub_floor]
    simp only [ModeShareModel.calculate, hraw, gt_iff_lt, hT, if_true, hshift]
    norm_num [dsum, dmap, pyround, rhe, -Int.self_sub_floor]
  · rw [abs_le]
    intro h
    have := h.2
    norm_num at this

-- =========================================================================
-- C5: fuel tax vs private-car share
-- =========================================================================

theorem carShareFuel_anti {t1 t2 : ℚ} (_h0 : 0 ≤ t1) (h12 : t1 < t2) (h2 : t2 ≤ 100) :
    carShareFuel t2 < carShareFuel t1 := by
  unfold carShareFuel
  have hd1 : 0 < 1 - 39/200 * (t1/100) := by nlinarith
  have hd2 : 0 < 1 - 39/200 * (t2/100) := by nlinarith
  rw [div_lt_div_iff₀ hd2 hd1]
  nlinarith

/-- Closed-form evaluation of the projected private-car share under a
fuel-tax-only policy. -/
theorem calcFuel_projCar (t : ℚ) (h2 : t ≤ 100) :
    (ModeShareModel.calculate DEFAULT_PARAMS (polF t)).map projectedCar
      = some (pyround 4 (carShareFuel t)) := by
  have hraw : rawProjected DEFAULT_PARAMS (polF t) = some (rawFuel t) := by
    rcases eq_or_ne t 0 with ht | ht
    · subst ht
      simp [rawProjected, priceChanges, ownStep, crossStep, foldSteps, dset, dget?,
        dgetD, elasticities, crossElasticities, DEFAULT_PARAMS, polF, rawFuel]
      norm_num
    · have hp : t / 100 ≠ 0 := div_ne_zero ht (by norm_num)
      simp [rawProjected, priceChanges, ownStep, crossStep, foldSteps, dset, dget?,
        dgetD, elasticities, crossElasticities, DEFAULT_PARAMS, polF, rawFuel, hp]
      norm_num
  have hTeq : dsum (rawFuel t) = 1 - 39/200 * (t/100) := by
    simp [rawFuel, dsum]
    ring
  have hT : 0 < dsum (rawFuel t) := by
    rw [hTeq]
    nlinarith
  have hkeys : dkeys (dmap (pyround 4)
      (dmap (fun v => v / dsum (rawFuel t)) (rawFuel t))) = canonicalModes := rfl
  obtain ⟨s, hs⟩ := shiftPercentage_isSome
      (dmap (pyround 4) (dmap (fun v => v / dsum (rawFuel t)) (rawFuel t)))
      DEFAULT_PARAMS.mode_share
      (by
        intro kv hkv _
        rw [← mem_dkeys_iff, hkeys]
        simp only [DEFAULT_PARAMS, List.mem_cons, List.not_mem_nil, or_false] at hkv
        rcases hkv with h | h | h | h <;> subst h <;> simp [canonicalModes])
  simp only [ModeShareModel.calculate, hraw, gt_iff_lt, hT, if_true, hs]
  rw [hTeq]
  simp [projectedCar, dgetD, dget?, dmap, rawFuel, carShareFuel]

/-- C5 (amended): with only the fuel tax active, the *pre-rounding*
renormalized private-car share is strictly decreasing in the tax over
[0, 100]; the share `calculate` actually returns is that value rounded to 4
decimals, hence only weakly decreasing — distinct taxes can yield the same
returned share. -/
theorem c5_fuel_tax_monotone (t1 t2 : ℚ) (h0 : 0 ≤ t1) (h12 : t1 < t2) (h2 : t2 ≤ 100) :
    carShareFuel t2 < carShareFuel t1
    ∧ (ModeShareModel.calculate DEFAULT_PARAMS (polF t1)).map projectedCar
        = some (pyround 4 (carShareFuel t1))
    ∧ (ModeShareModel.calculate DEFAULT_PARAMS (polF t2)).map projectedCar
        = some (pyround 4 (carShareFuel t2))
    ∧ pyround 4 (carShareFuel t2) ≤ pyround 4 (carShareFuel t1) :=
  ⟨carShareFuel_anti h0 h12 h2,
   calcFuel_projCar t1 (by linarith),
   calcFuel_projCar t2 h2,
   pyround_mono 4 (carShareFuel_anti h0 h12 h2).le⟩

/-- C5 (witness): the theorem instantiated at taxes 0 and 50. -/
theorem c5_fuel_tax_monotone_witness :
    carShareFuel 50 < carShareFuel 0
    ∧ (ModeShareModel.calculate DEFAULT_PARAMS (polF 0)).map projectedCar
        = some (pyround 4 (carShareFuel 0))
    ∧ (ModeShareModel.calculate DEFAULT_PARAMS (polF 50)).map projectedCar
        = some (pyround 4 (carShareFuel 50))
    ∧ pyround 4 (carShareFuel 50) ≤ pyround 4 (carShareFuel 0) :=
  c5_fuel_tax_monotone 0 50 (by norm_num) (by norm_num) (by norm_num)

/-- C5 (counterexample): the returned (4-decimal-rounded) private-car share
is *not* strictly decreasing: fuel taxes 0 and 0.001 — a pair t1 < t2 in
[0, 100] — both return exactly 0.45. -/
theorem c5_counterexample :
    (ModeShareModel.calculate DEFAULT_PARAMS (polF 0)).map projectedCar = some (9/20)
    ∧ (ModeShareModel.calculate DEFAULT_PARAMS (polF (1/1000))).map projectedCar = some (9/20)
    ∧ (0:ℚ) < 1/1000 := by
  refine ⟨?_, ?_, by norm_num⟩
  · rw [calcFuel_projCar 0 (by norm_num)]
    norm_num [carShareFuel, pyround, rhe, -Int.self_sub_floor]
  · rw [calcFuel_projCar (1/1000) (by norm_num)]
    norm_num [carShareFuel, pyround, rhe, -Int.self_sub_floor]

-- =========================================================================
-- C6: overall score range
-- =========================================================================

theorem rhe_nonneg {q : ℚ} (h : 0 ≤ q) : 0 ≤ rhe q :=
  le_trans (Int.floor_nonneg.mpr h) (floor_le_rhe q)

theorem rhe_le_of_le {q : ℚ} {m : ℤ} (h : q ≤ m) : rhe q ≤ m := by
  have hfloor : ⌊q⌋ ≤ m := le_trans (Int.floor_le_floor h) (by simp)
  have hhalf : ¬ (q - ⌊q⌋ < 1/2) → ⌊q⌋ < m := by
    intro hno
    have h1 : (⌊q⌋:ℚ) < q := by
      push_neg at hno
      have := Int.floor_le q
      linarith
    have h2 : (⌊q⌋:ℚ) < (m:ℚ) := lt_of_lt_of_le h1 h
    exact_mod_cast h2
  unfold rhe
  split_ifs with h1 h2 h3
  · exact hfloor
  · have := hhalf h1
    omega
  · exact hfloor
  · have := hhalf h1
    omega

/-- C6 (amended): `_calculate_overall_score` clips the emissions, cost and
efficiency sub-scores below at 0, weights the four sub-scores at 0.25 each,
multiplies by 100 and rounds to 1 decimal; the result lies in [0, 100]
whenever the inputs are in their normal ranges — per-trip CO2, user cost and
travel time non-negative and the equity score in [0, 1].  (This is not
guaranteed for every non-negative adjustment map: sub-scores are not clipped
*above* at 1, see the counterexample.) -/
theorem c6_overall_score_range (em : EmissionsResult) (c : CostResult)
    (eqr : EquityResult) (ef : EfficiencyResult)
    (h1 : 0 ≤ em.per_trip_co2_kg) (h2 : 0 ≤ c.user_cost_per_trip)
    (h3 : 0 ≤ ef.avg_travel_time_minutes)
    (h4 : 0 ≤ eqr.equity_score) (h5 : eqr.equity_score ≤ 1) :
    0 ≤ calculateOverallScore em c eqr ef
    ∧ calculateOverallScore em c eqr ef ≤ 100 := by
  unfold calculateOverallScore
  have hes0 : (0:ℚ) ≤ max 0 (1 - em.per_trip_co2_kg / 5) := le_max_left _ _
  have hes1 : max (0:ℚ) (1 - em.per_trip_co2_kg / 5) ≤ 1 :=
    max_le (by norm_num) (by nlinarith)
  have hcs0 : (0:ℚ) ≤ max 0 (1 - c.user_cost_per_trip / 20) := le_max_left _ _
  have hcs1 : max (0:ℚ) (1 - c.user_cost_per_trip / 20) ≤ 1 :=
    max_le (by norm_num) (by nlinarith)
  have hfs0 : (0:ℚ) ≤ max 0 (1 - ef.avg_travel_time_minutes / 60) := le_max_left _ _
  have hfs1 : max (0:ℚ) (1 - ef.avg_travel_time_minutes / 60) ≤ 1 :=
    max_le (by norm_num) (by nlinarith)
  set x := (25/100) * max (0:ℚ) (1 - em.per_trip_co2_kg / 5)
         + (25/100) * max 0 (1 - c.user_cost_per_trip / 20)
         + (25/100) * eqr.equity_score
         + (25/100) * max 0 (1 - ef.avg_travel_time_minutes / 60) with hx
  have hx0 : 0 ≤ x * 100 := by
    rw [hx]
    nlinarith
  have hx1 : x * 100 ≤ 100 := by
    rw [hx]
    nlinarith
  constructor
  · unfold pyround
    apply div_nonneg _ (by positivity)
    exact_mod_cast rhe_nonneg (by nlinarith)
  · unfold pyround
    have hr : ((rhe (x * 100 * 10 ^ 1) : ℚ)) ≤ 1000 := by
      exact_mod_cast rhe_le_of_le (m := 1000) (by push_cast; nlinarith)
    calc ((rhe (x * 100 * 10 ^ 1) : ℚ)) / 10 ^ 1 ≤ 1000 / 10 ^ 1 := by gcongr
      _ = 100 := by norm_num

/-- C6 (witness): the theorem instantiated at in-range result records (all
metrics 0, equity score 1), where the overall score is exactly 100. -/
theorem c6_overall_score_range_witness :
    0 ≤ calculateOverallScore ⟨0, [], 0, 0⟩ ⟨0, 0, 0, []⟩ ⟨0, [], [], 1⟩ ⟨0, [], 0, 0⟩
    ∧ calculateOverallScore ⟨0, [], 0, 0⟩ ⟨0, 0, 0, []⟩ ⟨0, [], [], 1⟩ ⟨0, [], 0, 0⟩ ≤ 100 :=
  c6_overall_score_range ⟨0, [], 0, 0⟩ ⟨0, 0, 0, []⟩ ⟨0, [], [], 1⟩ ⟨0, [], 0, 0⟩
    (by norm_num) (by norm_num) (by norm_num) (by norm_num) (by norm_num)

/-- C6 (counterexample): at the finite, non-negative adjustment map
`congestion_price = 100` (a lever whose documented range is only `>= 0`),
`simulate` on the default parameters returns an overall score of 159.8,
outside [0, 100]: the negative projected car share makes per-trip CO2
negative, so the unclipped emissions sub-score exceeds 1. -/
theorem c6_counterexample :
    ((simulate DEFAULT_PARAMS ⟨0, 0, 100⟩).map SimulationResult.overall_score).getD 0 = 799/5
    ∧ ¬ ((799:ℚ)/5 ≤ 100) := by
  refine ⟨?_, by norm_num⟩
  have hraw : rawProjected DEFAULT_PARAMS ⟨0, 0, 100⟩
      = some [("private_car", -(9/10)), ("motorcycle", 1/4),
              ("public_transit", 3/5), ("walking_cycling", 1/10)] := by
    simp [rawProjected, priceChanges, ownStep, crossStep, foldSteps, dset, dget?,
      dgetD, elasticities, crossElasticities, DEFAULT_PARAMS]
    norm_num
  have hT : (0:ℚ) < dsum [("private_car", -(9/10)), ("motorcycle", 1/4),
      ("public_transit", 3/5), ("walking_cycling", 1/10)] := by
    norm_num [dsum]
  have hshift : shiftPercentage
      (dmap (pyround 4) (dmap (fun v => v / dsum [("private_car", -(9/10)),
          ("motorcycle", 1/4), ("public_transit", 3/5), ("walking_cycling", 1/10)])
        [("private_car", -(9/10)), ("motorcycle", 1/4),
         ("public_transit", 3/5), ("walking_cycling", 1/10)]))
      DEFAULT_PARAMS.mode_share
      = some [("private_car", -4100), ("motorcycle", 1900),
              ("public_transit", 5900), ("walking_cycling", 1900)] := by
    simp [shiftPercentage, dget?, dmap, dsum, DEFAULT_PARAMS, pyround, rhe]
    norm_num [Int.fract, -Int.self_sub_floor]
  have hms : ModeShareModel.calculate DEFAULT_PARAMS ⟨0, 0, 100⟩
      = some { baseline_shares := DEFAULT_PARAMS.mode_share
               projected_shares := [("private_car", -18), ("motorcycle", 5),
                                    ("public_transit", 12), ("walking_cycling", 2)]
               shift_percentage := [("private_car", -4100), ("motorcycle", 1900),
                                    ("public_transit", 5900), ("walking_cycling", 1900)] } := by
    simp only [ModeShareModel.calculate, hraw, gt_iff_lt, hT, if_true, hshift]
    norm_num [dmap, dsum, pyround, rhe, -Int.self_sub_floor]
  have hem : EmissionsModel.calculate DEFAULT_PARAMS
      [("private_car", -18), ("motorcycle", 5), ("public_transit", 12), ("walking_cycling", 2)]
      = { total_co2_kg_per_day := -5423076923/100
          co2_by_mode := [("private_car", -8723076923/100), ("motorcycle", 15000000),
                          ("public_transit", 18000000), ("walking_cycling", 0)]
          per_capita_co2_kg := -135577/2500
          per_trip_co2_kg := -216923/10000 } := by
    simp [EmissionsModel.calculate, EmissionsModel.contributions, dmap, dsum,
      dgetD, dget?, DEFAULT_PARAMS, pyround, rhe]
    try norm_num [Int.fract, -Int.self_sub_floor]
  have hcost : CostBenefitModel.calculate DEFAULT_PARAMS
      [("private_car", -18), ("motorcycle", 5), ("public_transit", 12), ("walking_cycling", 2)]
      ⟨0, 0, 100⟩
      = some { user_cost_per_trip := 308/25
               total_user_cost_per_day := 30800000
               government_cost_per_year := 0
               cost_by_mode := [("private_car", 353/100), ("motorcycle", 29/10),
                                ("public_transit", 453/100), ("walking_cycling", 7/2)] } := by
    simp [CostBenefitModel.calculate, CostBenefitModel.costByMode, sumWeighted,
      dget?, dgetD, DEFAULT_PARAMS, pyround, rhe]
    try norm_num [Int.fract, -Int.self_sub_floor]
  have heqr : EquityModel.calculate DEFAULT_PARAMS (308/25)
      [("private_car", -18), ("motorcycle", 5), ("public_transit", 12), ("walking_cycling", 2)]
      ⟨0, 0, 100⟩
      = { gini_index := 331/1000
          accessibility_by_income := [("low", 1/5), ("lower_middle", 7/20), ("middle", 1/2),
                                      ("upper_middle", 1/2), ("high", 1/2)]
          burden_by_income := [("low", 12031/100), ("lower_middle", 275/4), ("middle", 1203/25),
                               ("upper_middle", 802/25), ("high", 77/4)]
          equity_score := 669/1000 } := by
    norm_num [EquityModel.calculate, incomeGroups, calculateGini, sortAsc, insertSorted,
      cumsumFrom, List.getLast?, DEFAULT_PARAMS, pyround, rhe, -Int.self_sub_floor]
  have heff : EfficiencyModel.calculate DEFAULT_PARAMS
      [("private_car", -18), ("motorcycle", 5), ("public_transit", 12), ("walking_cycling", 2)]
      (max (8/10) (1 + (dgetD [("private_car", (-18:ℚ)), ("motorcycle", 5),
          ("public_transit", 12), ("walking_cycling", 2)] "private_car" 0
        - dgetD DEFAULT_PARAMS.mode_share "private_car" 0)))
      = some { avg_travel_time_minutes := 308
               travel_time_by_mode := [("private_car", 24), ("motorcycle", 20),
                                       ("public_transit", 45), ("walking_cycling", 50)]
               congestion_index := 1369/1000
               system_throughput := 117/50 } := by
    simp [EfficiencyModel.calculate, baseTimes, sumWeighted, dget?, dgetD,
      DEFAULT_PARAMS, pyround, rhe, max_def]
    try norm_num [Int.fract, -Int.self_sub_floor]
  simp only [simulate, simulateS, hms, hem, hcost, heqr, heff]
  norm_num [calculateOverallScore, pyround, rhe, max_def, -Int.self_sub_floor]
